import Mathlib

/-!
Verification of the multi-tenant shipment-tracking core
(apps/backend: shipment_service.py, shipments.py API routes,
dependencies.py, auth_service.py, schemas/shipment.py).

The backend is shallowly embedded: the database is an explicit record of
lists (shipments, status history, change log, users), each service method
becomes a pure function from the database (plus request arguments) to an
`Except HTTPError` result, and SQLAlchemy queries become list filters with
the same predicates.  Machine details that no claim touches (timestamps as
wall-clock datetimes, the username join on history rows, Google-Sheets
sync, PDF rendering) are modelled by a logical clock / by the raw history
rows / omitted, respectively.
-/

namespace ShipTrack

/-- Mirror of FastAPI's `HTTPException`: a status code plus a detail
string.  Error equality (e.g. "the identical not-found response") is
equality of this record. -/
structure HTTPError where
  status_code : Nat
  detail : String
deriving DecidableEq, Repr

/-- An item inside a bag: `BagItemInfo` of `schemas/shipment.py`
(`model`, `color`, `sizes : Dict[str, int]`).  The sizes dict is an
association list; pydantic's `int` admits negative values, hence `Int`. -/
structure BagItem where
  model : String
  color : String
  sizes : List (String × Int)
deriving DecidableEq, Repr

/-- `BagInfo` of `schemas/shipment.py`: a bag id and its items. -/
structure Bag where
  bag_id : String
  items : List BagItem
deriving DecidableEq, Repr

/-- Row of the `shipments` table.  The frozen ORM class
(`models/shipment.py`) declares neither `shipment_type` nor
`fulfillment`; the former is added to the table by migration
9fcd469291f7 and the latter is read and filtered on throughout the
service layer (list/get ff visibility, the update branch), so both are
carried here.  No rejected-payload claim depends on them: the update
path that decides C9 can only ever touch columns the frozen class
declares, because the frozen `ShipmentUpdate` schema cannot emit the
`shipment_type`/`fulfillment` keys and the service's `in update_data`
guards short-circuit.  `created_at` / `updated_at` are ticks of the
logical clock `Db.now`. -/
structure Shipment where
  id : String
  supplier : String
  warehouse : String
  route_type : String
  shipment_type : String
  fulfillment : Option String
  shipment_date : Option String
  current_status : Option String
  bags_data : List Bag
  total_bags : Nat
  total_pieces : Int
  organization_id : Nat
  created_at : Nat
  updated_at : Nat
deriving DecidableEq, Repr

/-- Row of `shipment_status_history` (`models/shipment.py`). -/
structure HistoryEntry where
  id : Nat
  shipment_id : String
  status : String
  changed_by : Nat
  changed_at : Nat
  notes : Option String
  idempotency_key : Option String
  organization_id : Option Nat
deriving DecidableEq, Repr

/-- Old/new value payload of a change-log row (stored as JSONB in the
source): either a nullable scalar rendered to a string, or a bag
collection. -/
inductive LogVal where
  | str (v : Option String)
  | bags (v : List Bag)
deriving DecidableEq, Repr

/-- Row of `shipment_change_log` (`models/shipment.py`), as written by
`ShipmentChangeLogService.log_change`. -/
structure ChangeLogEntry where
  shipment_id : String
  changed_by : Nat
  change_type : String
  old_value : LogVal
  new_value : LogVal
  organization_id : Option Nat
deriving DecidableEq, Repr

/-- A user record with its role name and fulfillment-center name eagerly
resolved (the service always loads `User.role` / `User.fulfillment`
relationships; `fulfillment_name` is the `name` of the joined
fulfillments row, `none` when `users.fulfillment_id` is null).
`organization_id` is nullable (migration 370dac5c6bff). -/
structure UserRec where
  id : Nat
  username : String
  role : String
  organization_id : Option Nat
  fulfillment_name : Option String
deriving DecidableEq, Repr

/-- The backing store: the tables the claims touch, plus a logical clock
used for `created_at` / `changed_at` ordering (rows are appended in
clock order, so "ORDER BY ... DESC" is list reversal). -/
structure Db where
  shipments : List Shipment
  history : List HistoryEntry
  changeLog : List ChangeLogEntry
  users : List UserRec
  now : Nat
deriving DecidableEq, Repr

/-! ## Status state machine (`ShipmentService._validate_status_transition`) -/

/-- The `valid_transitions` dict of `_validate_status_transition`,
including the `.get(current, [])` default for unknown keys. -/
def validTransitionsFor : Option String → List String
  | none => ["SENT_FROM_FACTORY"]
  | some c =>
    if c = "новая отправка" then ["SENT_FROM_FACTORY"]
    else if c = "SENT_FROM_FACTORY" then ["SHIPPED_FROM_FF"]
    else if c = "SHIPPED_FROM_FF" then ["DELIVERED"]
    else []

/-- Python renders `None` as "None" inside the error f-string. -/
def statusStr : Option String → String
  | none => "None"
  | some s => s

/-- The HTTP 400 raised on an illegal transition. -/
def invalidTransitionError (current : Option String) (new : String) : HTTPError :=
  ⟨400, "Invalid status transition from " ++ statusStr current ++ " to " ++ new⟩

/-- `ShipmentService._validate_status_transition`: succeed iff `new` is in
the successor list of `current`, else HTTP 400. -/
def validateStatusTransition (current : Option String) (new : String) :
    Except HTTPError Unit :=
  if new ∈ validTransitionsFor current then .ok () else
    .error (invalidTransitionError current new)

/-- The four chain statuses of the spec, with `UNCONFIRMED` being the
stored sentinel "новая отправка". -/
inductive ChainStatus where
  | UNCONFIRMED
  | SENT_FROM_FACTORY
  | SHIPPED_FROM_FF
  | DELIVERED
deriving DecidableEq, Repr

/-- The stored `current_status` string of each chain status. -/
def chainName : ChainStatus → String
  | .UNCONFIRMED => "новая отправка"
  | .SENT_FROM_FACTORY => "SENT_FROM_FACTORY"
  | .SHIPPED_FROM_FF => "SHIPPED_FROM_FF"
  | .DELIVERED => "DELIVERED"

/-- The single legal successor in the chain
UNCONFIRMED → SENT_FROM_FACTORY → SHIPPED_FROM_FF → DELIVERED. -/
def chainNext : ChainStatus → Option ChainStatus
  | .UNCONFIRMED => some .SENT_FROM_FACTORY
  | .SENT_FROM_FACTORY => some .SHIPPED_FROM_FF
  | .SHIPPED_FROM_FF => some .DELIVERED
  | .DELIVERED => none

/-- C3: for every (current, attempted) pair of chain statuses, the
transition validator accepts exactly the single legal successor of the
current status and rejects every other pair — DELIVERED is terminal,
stage-skips and backward moves all fail — with the HTTP 400
InvalidTransition error. -/
theorem validate_transition_chain_c3 :
    ∀ c a : ChainStatus,
      validateStatusTransition (some (chainName c)) (chainName a) =
        (if chainNext c = some a then .ok () else
          .error (invalidTransitionError (some (chainName c)) (chainName a))) := by
  intro c a
  cases c <;> cases a <;> rfl

/-! ## Shipment read paths (`ShipmentService.get_shipment` / `list_shipments`
and their API routes in `api/v1/shipments.py`) -/

/-- The one 404 raised for a missing shipment, a cross-tenant shipment,
and an ff fulfillment mismatch alike. -/
def notFoundError : HTTPError :=
  ⟨404, "Shipment not found or access denied"⟩

/-- The status-history rows of one shipment, most recent first
(rows are appended in `changed_at` order, so DESC is reversal). -/
def shipmentEvents (db : Db) (sid : String) : List HistoryEntry :=
  (db.history.filter (fun h => h.shipment_id == sid)).reverse

/-- Response of `get_shipment`: the shipment row plus its ordered status
history (the username join on each event is claim-irrelevant and kept as
the raw row). -/
structure ShipmentView where
  shipment : Shipment
  events : List HistoryEntry
deriving DecidableEq, Repr

/-- `ShipmentService.get_shipment`: one query filtered by BOTH id and
organization (a null `organization_id` argument matches nothing, as
`IS NULL` on the non-null column does); 404 when absent; then the ff
post-lookup check — an ff user with a mismatched or missing fulfillment
center gets the same 404. -/
def getShipmentService (db : Db) (shipment_id : String)
    (organization_id : Option Nat) (current_user : Option UserRec) :
    Except HTTPError ShipmentView :=
  match db.shipments.find?
      (fun s => s.id == shipment_id && some s.organization_id == organization_id) with
  | none => .error notFoundError
  | some shipment =>
    match current_user with
    | some u =>
      if u.role = "ff" then
        match u.fulfillment_name with
        | some fname =>
          if shipment.fulfillment ≠ some fname then .error notFoundError
          else .ok ⟨shipment, shipmentEvents db shipment_id⟩
        | none => .error notFoundError
      else .ok ⟨shipment, shipmentEvents db shipment_id⟩
    | none => .ok ⟨shipment, shipmentEvents db shipment_id⟩

/-- GET /shipments/:id route: passes the user's organization id but does
NOT forward `current_user` to the service (the source calls
`ShipmentService.get_shipment(db, shipment_id, current_user.organization_id)`
leaving the `current_user` parameter at its default `None`). -/
def getShipmentRoute (db : Db) (shipment_id : String) (current_user : UserRec) :
    Except HTTPError ShipmentView :=
  getShipmentService db shipment_id current_user.organization_id none

/-- Truthy string filter: `if status:` / `if supplier:` in Python skips
the WHERE clause for both `None` and the empty string. -/
def strFilterMatches (flt : Option String) (value : Option String) : Bool :=
  match flt with
  | none => true
  | some f => f == "" || value == some f

/-- The projection returned for each row by `list_shipments`. -/
structure ShipmentListItem where
  id : String
  supplier : String
  warehouse : String
  route_type : String
  shipment_type : String
  fulfillment : Option String
  current_status : Option String
  total_bags : Nat
  total_pieces : Int
  created_at : Nat
  updated_at : Nat
deriving DecidableEq, Repr

/-- Row projection of `list_shipments`. -/
def toListItem (s : Shipment) : ShipmentListItem :=
  ⟨s.id, s.supplier, s.warehouse, s.route_type, s.shipment_type, s.fulfillment,
    s.current_status, s.total_bags, s.total_pieces, s.created_at, s.updated_at⟩

/-- The assembled SELECT of `list_shipments`: organization filter, the
optional ff fulfillment-name filter, truthy status/supplier filters,
ORDER BY created_at DESC (list reversal), OFFSET then LIMIT. -/
def listQuery (db : Db) (org : Nat) (ffName : Option String)
    (statusFilter supplierFilter : Option String) (lim off : Nat) :
    List ShipmentListItem :=
  let rows := db.shipments.filter (fun s =>
    s.organization_id == org
    && (match ffName with | some f => s.fulfillment == some f | none => true)
    && strFilterMatches statusFilter s.current_status
    && strFilterMatches supplierFilter (some s.supplier))
  (((rows.reverse).drop off).take lim).map toListItem

/-- `ShipmentService.list_shipments`: empty for a missing user, for the
driver role, and for a null organization; ff users are restricted to
their assigned fulfillment center's name and see nothing without one;
all other roles see their organization's shipments. -/
def listShipmentsService (db : Db) (organization_id : Option Nat)
    (current_user : Option UserRec) (statusFilter supplierFilter : Option String)
    (lim off : Nat) : List ShipmentListItem :=
  match current_user with
  | none => []
  | some u =>
    if u.role = "driver" then []
    else
      match organization_id with
      | none => []
      | some org =>
        if u.role = "ff" then
          match u.fulfillment_name with
          | none => []
          | some fname =>
            listQuery db org (some fname) statusFilter supplierFilter lim off
        else listQuery db org none statusFilter supplierFilter lim off

/-- GET /shipments route: forwards the organization id, the filters and
the pagination but NOT `current_user` (left at its default `None` in the
source call). -/
def listShipmentsRoute (db : Db) (current_user : UserRec)
    (statusFilter supplierFilter : Option String) (lim off : Nat) :
    List ShipmentListItem :=
  listShipmentsService db current_user.organization_id none
    statusFilter supplierFilter lim off

/-! ## Status update (`ShipmentService.update_status` and the
POST /shipments/:id/events route) -/

/-- The `action` enum of `StatusUpdateRequest` (`ShipmentStatus` in
`schemas/shipment.py`): the only target statuses a request can carry. -/
inductive TargetStatus where
  | SENT_FROM_FACTORY
  | SHIPPED_FROM_FF
  | DELIVERED
deriving DecidableEq, Repr

/-- `.value` of the target-status enum. -/
def TargetStatus.value : TargetStatus → String
  | .SENT_FROM_FACTORY => "SENT_FROM_FACTORY"
  | .SHIPPED_FROM_FF => "SHIPPED_FROM_FF"
  | .DELIVERED => "DELIVERED"

/-- In-place mutation performed by a committed status transition: set the
shipment's `current_status`, append one history row carrying the
idempotency key, and advance the clock. -/
def applyStatus (db : Db) (sid newStatus : String) (user : UserRec)
    (key : String) : Db :=
  { db with
    shipments := db.shipments.map (fun s =>
      if s.id == sid then
        { s with current_status := some newStatus, updated_at := db.now }
      else s),
    history := db.history ++
      [⟨db.history.length, sid, newStatus, user.id, db.now, none,
        some key, user.organization_id⟩],
    now := db.now + 1 }

/-- `ShipmentService.update_status`, in source order: (1) lookup filtered
by id AND the user's organization, 404 otherwise; (2) defense-in-depth
organization re-check (403); (3) `_validate_status_transition`; (4) only
then the idempotency-key lookup — if the key already exists among ALL
history rows, return the current state unchanged; (5) otherwise commit
the mutation and re-read. -/
def updateStatusService (db : Db) (shipment_id : String)
    (new_status : TargetStatus) (user : UserRec) (idempotency_key : String) :
    Except HTTPError (Db × ShipmentView) :=
  match db.shipments.find?
      (fun s => s.id == shipment_id && some s.organization_id == user.organization_id) with
  | none => .error notFoundError
  | some shipment =>
    if some shipment.organization_id ≠ user.organization_id then
      .error ⟨403, "Cannot update shipment from different organization"⟩
    else
      match validateStatusTransition shipment.current_status new_status.value with
      | .error e => .error e
      | .ok _ =>
        if (db.history.find?
            (fun h => h.idempotency_key == some idempotency_key)).isSome then
          (getShipmentService db shipment_id user.organization_id (some user)).map
            (fun v => (db, v))
        else
          let db2 := applyStatus db shipment_id new_status.value user idempotency_key
          (getShipmentService db2 shipment_id user.organization_id (some user)).map
            (fun v => (db2, v))

/-- The `role_permissions` dict of the POST /shipments/:id/events route,
verbatim — including the extra "warehouse" name in the DELIVERED row. -/
def rolePermissionsFor (action : String) : List String :=
  if action = "SENT_FROM_FACTORY" then ["supplier", "admin"]
  else if action = "SHIPPED_FROM_FF" then ["ff", "admin"]
  else if action = "DELIVERED" then ["driver", "warehouse", "admin"]
  else []

/-- The route's role gate: the actor's role name must be in the permission
list keyed by the target status. -/
def eventRoleAllowed (role : String) (action : TargetStatus) : Bool :=
  (rolePermissionsFor action.value).contains role

/-- The 403 raised by the events route on a role denial, with the source
f-string's single quotes around the role and action names. -/
def forbiddenActionError (role action : String) : HTTPError :=
  ⟨403, "Role \x27" ++ role ++ "\x27 cannot perform action \x27" ++ action ++ "\x27"⟩

/-- POST /shipments/:id/events (`create_shipment_event`): role gate keyed
by target status, then idempotency-key synthesis for a missing or empty
header (`if not idempotency_key`), then `update_status`.  `freshKey`
stands for the `uuid.uuid4()` synthesised key. -/
def createShipmentEvent (db : Db) (shipment_id : String)
    (action : TargetStatus) (idempotency_key : Option String)
    (freshKey : String) (current_user : UserRec) :
    Except HTTPError (Db × ShipmentView) :=
  if ¬ eventRoleAllowed current_user.role action then
    .error (forbiddenActionError current_user.role action.value)
  else
    let key := match idempotency_key with
      | some k => if k = "" then freshKey else k
      | none => freshKey
    updateStatusService db shipment_id action current_user key

/-! ## Shipment update (`ShipmentService.update_shipment`) -/

/-- The `update_dict` handed to `update_shipment` by the PUT route:
`model_dump(exclude_none=True)`, so each key is either absent (`none`)
or present with a value. -/
structure UpdateData where
  supplier : Option String
  warehouse : Option String
  route_type : Option String
  shipment_type : Option String
  fulfillment : Option String
  shipment_date : Option String
  bags_data : Option (List Bag)
deriving DecidableEq, Repr

/-- One change-log row as written by
`ShipmentChangeLogService.log_change`. -/
def mkLog (sid : String) (uid : Nat) (ctype : String) (oldv newv : LogVal)
    (org : Option Nat) : ChangeLogEntry :=
  ⟨sid, uid, ctype, oldv, newv, org⟩

/-- The "supplier" branch of `update_shipment`: if the key is present and
differs, set the field and append one log row. -/
def updStepSupplier (upd : UpdateData) (sid : String) (uid : Nat)
    (org : Option Nat) (sl : Shipment × List ChangeLogEntry) :
    Shipment × List ChangeLogEntry :=
  match upd.supplier with
  | some v =>
    if v ≠ sl.1.supplier then
      ({ sl.1 with supplier := v },
        sl.2 ++ [mkLog sid uid "supplier" (.str (some sl.1.supplier)) (.str (some v)) org])
    else sl
  | none => sl

/-- The "warehouse" branch of `update_shipment`. -/
def updStepWarehouse (upd : UpdateData) (sid : String) (uid : Nat)
    (org : Option Nat) (sl : Shipment × List ChangeLogEntry) :
    Shipment × List ChangeLogEntry :=
  match upd.warehouse with
  | some v =>
    if v ≠ sl.1.warehouse then
      ({ sl.1 with warehouse := v },
        sl.2 ++ [mkLog sid uid "warehouse" (.str (some sl.1.warehouse)) (.str (some v)) org])
    else sl
  | none => sl

/-- The "route_type" branch of `update_shipment`. -/
def updStepRouteType (upd : UpdateData) (sid : String) (uid : Nat)
    (org : Option Nat) (sl : Shipment × List ChangeLogEntry) :
    Shipment × List ChangeLogEntry :=
  match upd.route_type with
  | some v =>
    if v ≠ sl.1.route_type then
      ({ sl.1 with route_type := v },
        sl.2 ++ [mkLog sid uid "route_type" (.str (some sl.1.route_type)) (.str (some v)) org])
    else sl
  | none => sl

/-- The "shipment_type" branch of `update_shipment`. -/
def updStepShipmentType (upd : UpdateData) (sid : String) (uid : Nat)
    (org : Option Nat) (sl : Shipment × List ChangeLogEntry) :
    Shipment × List ChangeLogEntry :=
  match upd.shipment_type with
  | some v =>
    if v ≠ sl.1.shipment_type then
      ({ sl.1 with shipment_type := v },
        sl.2 ++ [mkLog sid uid "shipment_type" (.str (some sl.1.shipment_type)) (.str (some v)) org])
    else sl
  | none => sl

/-- The "fulfillment" branch of `update_shipment` (the stored field is
nullable, the patched value is a string). -/
def updStepFulfillment (upd : UpdateData) (sid : String) (uid : Nat)
    (org : Option Nat) (sl : Shipment × List ChangeLogEntry) :
    Shipment × List ChangeLogEntry :=
  match upd.fulfillment with
  | some v =>
    if some v ≠ sl.1.fulfillment then
      ({ sl.1 with fulfillment := some v },
        sl.2 ++ [mkLog sid uid "fulfillment" (.str sl.1.fulfillment) (.str (some v)) org])
    else sl
  | none => sl

/-- The "shipment_date" branch of `update_shipment` (old/new logged as
ISO strings or null). -/
def updStepShipmentDate (upd : UpdateData) (sid : String) (uid : Nat)
    (org : Option Nat) (sl : Shipment × List ChangeLogEntry) :
    Shipment × List ChangeLogEntry :=
  match upd.shipment_date with
  | some v =>
    if some v ≠ sl.1.shipment_date then
      ({ sl.1 with shipment_date := some v },
        sl.2 ++ [mkLog sid uid "shipment_date" (.str sl.1.shipment_date) (.str (some v)) org])
    else sl
  | none => sl

/-- Sum of all quantities of one item (`sum(item_sizes.values())`). -/
def itemPieces (it : BagItem) : Int :=
  (it.sizes.map Prod.snd).sum

/-- `total_pieces`: sum over all bags, all items, all size buckets. -/
def bagsTotalPieces (bags : List Bag) : Int :=
  (bags.map (fun b => (b.items.map itemPieces).sum)).sum

/-- The "bags_data" branch of `update_shipment`: on a differing bag
collection, recompute `total_bags` and `total_pieces` from the new bags
and log the old/new collections as "bag_contents". -/
def updStepBags (upd : UpdateData) (sid : String) (uid : Nat)
    (org : Option Nat) (sl : Shipment × List ChangeLogEntry) :
    Shipment × List ChangeLogEntry :=
  match upd.bags_data with
  | some nb =>
    if nb ≠ sl.1.bags_data then
      ({ sl.1 with
          bags_data := nb,
          total_bags := nb.length,
          total_pieces := bagsTotalPieces nb },
        sl.2 ++ [mkLog sid uid "bag_contents" (.bags sl.1.bags_data) (.bags nb) org])
    else sl
  | none => sl

/-- All seven field branches of `update_shipment`, in source order. -/
def applyUpdateSteps (upd : UpdateData) (sid : String) (uid : Nat)
    (org : Option Nat) (s : Shipment) : Shipment × List ChangeLogEntry :=
  updStepBags upd sid uid org
    (updStepShipmentDate upd sid uid org
      (updStepFulfillment upd sid uid org
        (updStepShipmentType upd sid uid org
          (updStepRouteType upd sid uid org
            (updStepWarehouse upd sid uid org
              (updStepSupplier upd sid uid org (s, [])))))))

/-- The commit at the end of `update_shipment`: when no field changed
nothing is written (`changes_made` stays false), otherwise the mutated
shipment row replaces the old one, the accumulated change-log rows are
appended, and the clock advances. -/
def commitUpdate (db : Db) (sid : String)
    (r : Shipment × List ChangeLogEntry) : Db :=
  if r.2.isEmpty then db
  else
    { db with
      shipments := db.shipments.map (fun t =>
        if t.id == sid then { r.1 with updated_at := db.now } else t),
      changeLog := db.changeLog ++ r.2,
      now := db.now + 1 }

/-- `ShipmentService.update_shipment`: lookup filtered by id AND the
user's organization (404 otherwise), the defense-in-depth 403 re-check,
then the per-field branches; a commit happens only when some field
changed, and the refreshed view is returned. -/
def updateShipmentService (db : Db) (shipment_id : String)
    (upd : UpdateData) (user : UserRec) :
    Except HTTPError (Db × ShipmentView) :=
  match db.shipments.find?
      (fun s => s.id == shipment_id && some s.organization_id == user.organization_id) with
  | none => .error notFoundError
  | some shipment =>
    if some shipment.organization_id ≠ user.organization_id then
      .error ⟨403, "Cannot update shipment from different organization"⟩
    else
      let db2 := commitUpdate db shipment_id
        (applyUpdateSteps upd shipment_id user.id user.organization_id shipment)
      (getShipmentService db2 shipment_id user.organization_id (some user)).map
        (fun v => (db2, v))

/-! ## Shipment creation (`ShipmentService.create_shipment` and the
POST /shipments route with its pydantic body validation) -/

/-- Create payload as `ShipmentService.create_shipment` consumes it.
The frozen pydantic `ShipmentCreate` (schemas/shipment.py:44-51)
declares only supplier, warehouse, route_type, shipment_date and
bags_data, yet the service also reads `shipment_data.shipment_type` and
`shipment_data.fulfillment` (shipment_service.py:92-93) — on the frozen
snapshot that attribute access raises AttributeError on every create
request, before `db.add` is reached, so no create ever persists
as-frozen.  This record carries the two extra fields the service reads
(spec §3/§4.4; shipment_type's server default is "BAGS" per migration
9fcd469291f7) so that the frozen-faithful totals computation of lines
62-68, which precedes the crash site, can be stated; no claim about
rejected-payload persistence is drawn from this create path. -/
structure ShipmentCreate where
  supplier : String
  warehouse : String
  route_type : String
  shipment_type : String
  fulfillment : Option String
  shipment_date : Option String
  bags_data : List Bag
deriving DecidableEq, Repr

/-- Zero-pad a counter to (at least) four digits (`%04d`). -/
def pad4 (n : Nat) : String :=
  let s := toString n
  if s.length ≥ 4 then s else String.mk (List.replicate (4 - s.length) '0') ++ s

/-- The id-sequence query of `create_shipment`: among the organization's
shipments whose id matches `SHIP-{org}-%`, take the lexicographically
greatest id (ORDER BY id DESC LIMIT 1). -/
def lastShipmentId (db : Db) (org : Nat) : Option String :=
  let pre := "SHIP-" ++ toString org ++ "-"
  (db.shipments.filter (fun s => s.organization_id == org && pre.isPrefixOf s.id)).foldl
    (fun acc s =>
      match acc with
      | none => some s.id
      | some m => if m < s.id then some s.id else some m)
    none

/-- Next sequence number: trailing `-`-separated segment of the last id
plus one, or 1 when the organization has none. -/
def nextSeq (db : Db) (org : Nat) : Nat :=
  match lastShipmentId db org with
  | none => 1
  | some last => (((last.splitOn "-").getLastD "").toNat?.getD 0) + 1

/-- `ShipmentService.create_shipment`: generate `SHIP-{org}-{seq:04d}`,
compute `total_bags` / `total_pieces` from the payload's bags (lines
62-68, frozen-faithful and evaluated before the crash site), set the
sentinel status "новая отправка", persist, and return the response view
with an empty events list.  On the frozen snapshot the constructor
argument `shipment_data.shipment_type` (line 92) raises AttributeError
before `db.add`, so this definition models the completed write the
service performs once the payload carries the fields it reads; it is
used only for the totals-invariant claim, never to assert persistence of
a payload the spec says is rejected.  (The fire-and-forget Google-Sheets
sync is omitted: its failures never affect the result.) -/
def createShipmentService (db : Db) (data : ShipmentCreate) (org : Nat) :
    Db × ShipmentView :=
  let sid := "SHIP-" ++ toString org ++ "-" ++ pad4 (nextSeq db org)
  let s : Shipment :=
    { id := sid
      supplier := data.supplier
      warehouse := data.warehouse
      route_type := data.route_type
      shipment_type := data.shipment_type
      fulfillment := data.fulfillment
      shipment_date := data.shipment_date
      current_status := some "новая отправка"
      bags_data := data.bags_data
      total_bags := data.bags_data.length
      total_pieces := bagsTotalPieces data.bags_data
      organization_id := org
      created_at := db.now
      updated_at := db.now }
  ({ db with shipments := db.shipments ++ [s], now := db.now + 1 }, ⟨s, []⟩)

/-- JSON values of a request body (ints suffice: no claim involves
floats or booleans). -/
inductive Json where
  | str (s : String)
  | int (n : Int)
  | obj (fields : List (String × Json))
  | arr (xs : List Json)
  | null

/-- Object-field lookup. -/
def Json.get? (j : Json) (k : String) : Option Json :=
  match j with
  | .obj fs => fs.lookup k
  | _ => none

/-- A required string field. -/
def asStr : Option Json → Option String
  | some (.str s) => some s
  | _ => none

/-- An optional string field: missing or null becomes `none`, a string
is kept, anything else is a type error. -/
def asOptStr : Option Json → Option (Option String)
  | none => some none
  | some .null => some none
  | some (.str s) => some (some s)
  | some _ => none

/-- `sizes : Dict[str, int]` — every value must be an int; pydantic puts
no sign constraint on it. -/
def parseSizes : Json → Option (List (String × Int))
  | .obj fs => fs.mapM (fun kv =>
      match kv.2 with
      | .int n => some (kv.1, n)
      | _ => none)
  | _ => none

/-- `BagItemInfo` validation: model and color strings plus the sizes
dict. -/
def parseItem (j : Json) : Option BagItem :=
  match asStr (j.get? "model"), asStr (j.get? "color"), j.get? "sizes" with
  | some m, some c, some sz => (parseSizes sz).map (fun l => ⟨m, c, l⟩)
  | _, _, _ => none

/-- `BagInfo` validation: a bag_id string and a list of items.  No
uniqueness check on bag ids exists anywhere in the schema. -/
def parseBag (j : Json) : Option Bag :=
  match asStr (j.get? "bag_id"), j.get? "items" with
  | some bid, some (.arr xs) => (xs.mapM parseItem).map (fun its => ⟨bid, its⟩)
  | _, _ => none

/-- An optional `route_type` field restricted to the `RouteType` enum
(DIRECT / VIA_FF), as pydantic validates it. -/
def asOptRouteType : Option Json → Option (Option String)
  | none => some none
  | some .null => some none
  | some (.str s) =>
    if s = "DIRECT" ∨ s = "VIA_FF" then some (some s) else none
  | some _ => none

/-- An optional `bags_data` field: a list of bags when present. -/
def asOptBags : Option Json → Option (Option (List Bag))
  | none => some none
  | some .null => some none
  | some (.arr xs) => (xs.mapM parseBag).map some
  | some _ => none

/-- The frozen `ShipmentUpdate` pydantic validation
(schemas/shipment.py:118-125) composed with the PUT route's
`model_dump(exclude_none=True)`: five optional fields — supplier,
warehouse, route_type (enum-checked), shipment_date, bags_data — each
absent-or-null key dropped from the dict, with no constraint on quantity
sign and no duplicate-bag-id check; unknown body keys are ignored, and
the schema can never emit the `shipment_type` / `fulfillment` keys the
service's other branches look for, so those stay `none`. -/
def parseShipmentUpdate (j : Json) : Option UpdateData :=
  match j with
  | .obj _ =>
    match asOptStr (j.get? "supplier"), asOptStr (j.get? "warehouse"),
        asOptRouteType (j.get? "route_type"), asOptStr (j.get? "shipment_date"),
        asOptBags (j.get? "bags_data") with
    | some sup, some wh, some rt, some sd, some bags =>
      some ⟨sup, wh, rt, none, none, sd, bags⟩
    | _, _, _, _, _ => none
  | _ => none

/-- FastAPI's body-validation failure. -/
def validationError : HTTPError :=
  ⟨422, "Unprocessable Entity"⟩

/-- The 403 of the PUT route's role gate. -/
def editForbiddenError : HTTPError :=
  ⟨403, "Only suppliers can edit shipments"⟩

/-- PUT /shipments/:id (`update_shipment` route): the body is validated
against `ShipmentUpdate` before the handler runs — a malformed body is
rejected with 422 and the handler (and hence any persistence) is never
reached; then the supplier/admin role gate, then the service call. -/
def updateShipmentRoute (db : Db) (shipment_id : String) (body : Json)
    (current_user : UserRec) : Except HTTPError (Db × ShipmentView) :=
  match parseShipmentUpdate body with
  | none => .error validationError
  | some upd =>
    if current_user.role = "supplier" ∨ current_user.role = "admin" then
      updateShipmentService db shipment_id upd current_user
    else .error editForbiddenError

/-! ## Authentication (`get_current_user` in `core/dependencies.py` and
the token issued by `AuthService.authenticate_user`) -/

/-- The decoded JWT claims relevant to the tenant guard: `payload.get`
yields `None` both for an absent claim and for a null one. -/
structure TokenPayload where
  user_id : Option Nat
  username : String
  role : String
  organization_id : Option Nat
deriving DecidableEq, Repr

/-- 401 for an invalid, malformed or expired token
(`decode_access_token` returned `None`). -/
def invalidCredentialsError : HTTPError :=
  ⟨401, "Invalid authentication credentials"⟩

/-- 401 for a token missing its user_id or organization_id claim. -/
def invalidPayloadError : HTTPError :=
  ⟨401, "Invalid token payload"⟩

/-- 401 when no user row matches the token's user_id. -/
def userNotFoundError : HTTPError :=
  ⟨401, "User not found"⟩

/-- 401 when the token's organization claim differs from the freshly
loaded user row's organization. -/
def orgMismatchError : HTTPError :=
  ⟨401, "Organization mismatch in token"⟩

/-- `get_current_user`, after `decode_access_token` (whose
invalid/expired outcome is the `none` payload): claim-presence check,
user load by id with role and organization eagerly resolved, and the
live tenant re-check against the loaded row. -/
def getCurrentUser (payload : Option TokenPayload) (users : List UserRec) :
    Except HTTPError UserRec :=
  match payload with
  | none => .error invalidCredentialsError
  | some p =>
    match p.user_id, p.organization_id with
    | some uid, some oid =>
      match users.find? (fun u => u.id == uid) with
      | none => .error userNotFoundError
      | some u =>
        if u.organization_id = some oid then .ok u else .error orgMismatchError
    | _, _ => .error invalidPayloadError

/-- The claims `AuthService.authenticate_user` embeds in the token it
issues after a successful password check: the user's id, name, role name
and CURRENT organization id (possibly null). -/
def loginTokenPayload (u : UserRec) : TokenPayload :=
  ⟨some u.id, u.username, u.role, u.organization_id⟩

/-! ## The role universe and the §4.3 transition matrix -/

/-- The closed role enumeration of the system: the roles seeded by
`scripts/seed_roles.py` plus "owner" inserted by migration 2abad51cd95f.
(The events route's permission dict also names a "warehouse" role, but no
such role exists in the roles table.) -/
inductive Role where
  | admin
  | owner
  | supplier
  | ff
  | driver
deriving DecidableEq, Repr

/-- The stored role name of each role. -/
def roleName : Role → String
  | .admin => "admin"
  | .owner => "owner"
  | .supplier => "supplier"
  | .ff => "ff"
  | .driver => "driver"

/-- The §4.3 matrix restricted to the three status columns, written from
the spec's words: SENT_FROM_FACTORY only by supplier or admin,
SHIPPED_FROM_FF only by ff or admin, DELIVERED only by driver or admin. -/
def specStatusMatrix : Role → TargetStatus → Bool
  | .admin, _ => true
  | .supplier, .SENT_FROM_FACTORY => true
  | .ff, .SHIPPED_FROM_FF => true
  | .driver, .DELIVERED => true
  | _, _ => false

/-- C4: over the system's role enumeration, the events route's role gate
agrees exactly with the §4.3 matrix keyed by target status, and any
(role, target) pair the matrix denies is rejected by the route with the
403 naming the denied action, before any other processing. -/
theorem event_role_matrix_c4 :
    ∀ (r : Role) (a : TargetStatus),
      eventRoleAllowed (roleName r) a = specStatusMatrix r a ∧
      (∀ (db : Db) (sid : String) (key : Option String) (freshKey : String)
          (u : UserRec), u.role = roleName r → specStatusMatrix r a = false →
        createShipmentEvent db sid a key freshKey u =
          .error (forbiddenActionError (roleName r) a.value)) := by
  intro r a
  constructor
  · cases r <;> cases a <;> decide
  · intro db sid key freshKey u hrole hden
    have hgate : eventRoleAllowed (roleName r) a = false := by
      revert hden
      cases r <;> cases a <;> decide
    simp [createShipmentEvent, hrole, hgate]

/-- Witness for C4 at a concrete denied pair: an owner may not perform
SENT_FROM_FACTORY, and the route rejects the request with the 403. -/
theorem event_role_matrix_c4_witness :
    eventRoleAllowed (roleName .owner) .SENT_FROM_FACTORY =
      specStatusMatrix .owner .SENT_FROM_FACTORY ∧
    createShipmentEvent ⟨[], [], [], [], 0⟩ "SHIP-1-0001" .SENT_FROM_FACTORY
        (some "k1") "fk1" ⟨1, "own", "owner", some 1, none⟩ =
      .error (forbiddenActionError (roleName .owner)
        (TargetStatus.SENT_FROM_FACTORY).value) :=
  ⟨(event_role_matrix_c4 .owner .SENT_FROM_FACTORY).1,
    (event_role_matrix_c4 .owner .SENT_FROM_FACTORY).2
      ⟨[], [], [], [], 0⟩ "SHIP-1-0001" (some "k1") "fk1"
      ⟨1, "own", "owner", some 1, none⟩ rfl rfl⟩

/-! ## C2: idempotent retry of a status transition -/

/-- A supplier of tenant 1. -/
def c2Supplier : UserRec := ⟨1, "sup", "supplier", some 1, none⟩

/-- A fresh tenant-1 shipment in the sentinel state. -/
def c2Shipment : Shipment :=
  { id := "SHIP-1-0001", supplier := "Acme", warehouse := "Kazan",
    route_type := "DIRECT", shipment_type := "BAGS", fulfillment := none,
    shipment_date := none, current_status := some "новая отправка",
    bags_data := [], total_bags := 0, total_pieces := 0,
    organization_id := 1, created_at := 0, updated_at := 0 }

/-- The store holding that shipment. -/
def c2Db : Db := ⟨[c2Shipment], [], [], [c2Supplier], 1⟩

/-- First transition call: UNCONFIRMED → SENT_FROM_FACTORY with
idempotency token "tok-1". -/
def c2FirstCall : Except HTTPError (Db × ShipmentView) :=
  createShipmentEvent c2Db "SHIP-1-0001" .SENT_FROM_FACTORY (some "tok-1")
    "fresh-1" c2Supplier

/-- The store after the first (successful) call. -/
def c2DbAfter : Db :=
  match c2FirstCall with
  | .ok p => p.1
  | .error _ => c2Db

/-- C2 is violated by the code: the first transition with token "tok-1"
succeeds and writes exactly one history row carrying that token, yet the
identical retry does NOT return the unchanged state — because
`update_status` validates the transition BEFORE looking the token up, the
retry dies with the 400 InvalidTransition (from SENT_FROM_FACTORY to
SENT_FROM_FACTORY) and never reaches the idempotency short-circuit. -/
theorem idempotent_retry_rejected_c2 :
    Except.isOk c2FirstCall = true ∧
    c2DbAfter.history.map (fun h => h.idempotency_key) = [some "tok-1"] ∧
    c2DbAfter.history.map (fun h => h.status) = ["SENT_FROM_FACTORY"] ∧
    createShipmentEvent c2DbAfter "SHIP-1-0001" .SENT_FROM_FACTORY
        (some "tok-1") "fresh-1" c2Supplier =
      .error (invalidTransitionError (some "SENT_FROM_FACTORY")
        "SENT_FROM_FACTORY") :=
  ⟨rfl, rfl, rfl, rfl⟩

/-! ## C6: list visibility per role, and the route that drops the user -/

/-- An owner, a driver and a centerless ff user, all of tenant 1. -/
def c6Owner : UserRec := ⟨2, "own", "owner", some 1, none⟩

/-- Driver of tenant 1. -/
def c6Driver : UserRec := ⟨3, "drv", "driver", some 1, none⟩

/-- An ff user of tenant 1 with no assigned fulfillment center. -/
def c6FfNoCenter : UserRec := ⟨4, "ffu", "ff", some 1, none⟩

/-- A tenant-1 shipment. -/
def c6Shipment : Shipment :=
  { id := "SHIP-1-0001", supplier := "Acme", warehouse := "Kazan",
    route_type := "DIRECT", shipment_type := "BAGS", fulfillment := none,
    shipment_date := none, current_status := some "новая отправка",
    bags_data := [], total_bags := 0, total_pieces := 0,
    organization_id := 1, created_at := 0, updated_at := 0 }

/-- The store for the list scenarios. -/
def c6Db : Db := ⟨[c6Shipment], [], [], [c6Owner, c6Driver, c6FfNoCenter], 1⟩

/-- C6 is violated by the wiring: the service implements the claimed
visibility (an owner sees the tenant's shipments, a driver's list is
empty, a centerless ff user sees nothing), but the GET /shipments route
never forwards `current_user` to the service, whose `if not current_user`
guard then returns the empty list for EVERY caller — here an owner with a
shipment in their own tenant gets []. -/
theorem list_route_drops_user_c6 :
    listShipmentsRoute c6Db c6Owner none none 20 0 = [] ∧
    listShipmentsService c6Db (some 1) (some c6Owner) none none 20 0 =
      [toListItem c6Shipment] ∧
    listShipmentsService c6Db (some 1) (some c6Driver) none none 20 0 = [] ∧
    listShipmentsService c6Db (some 1) (some c6FfNoCenter) none none 20 0 = [] :=
  ⟨rfl, rfl, rfl, rfl⟩

/-! ## C7: the ff post-lookup fulfillment check on direct reads -/

/-- An ff user of tenant 1 assigned to center "FF-A". -/
def c7Ff : UserRec := ⟨5, "ffa", "ff", some 1, some "FF-A"⟩

/-- A tenant-1 shipment routed through the OTHER center "FF-B". -/
def c7Shipment : Shipment :=
  { id := "SHIP-1-0001", supplier := "Acme", warehouse := "Kazan",
    route_type := "VIA_FF", shipment_type := "BAGS",
    fulfillment := some "FF-B", shipment_date := none,
    current_status := some "новая отправка", bags_data := [],
    total_bags := 0, total_pieces := 0, organization_id := 1,
    created_at := 0, updated_at := 0 }

/-- The store for the direct-read scenario. -/
def c7Db : Db := ⟨[c7Shipment], [], [], [c7Ff], 1⟩

/-- C7 is violated by the wiring: the service applies the post-lookup
fulfillment check and collapses a mismatch into the very same 404 as a
nonexistent id, but the GET /shipments/:id route never forwards
`current_user`, so through the API the ff user with center "FF-A"
successfully reads a shipment routed through "FF-B". -/
theorem ff_check_skipped_by_route_c7 :
    Except.isOk (getShipmentRoute c7Db "SHIP-1-0001" c7Ff) = true ∧
    getShipmentService c7Db "SHIP-1-0001" (some 1) (some c7Ff) =
      .error notFoundError ∧
    getShipmentService c7Db "SHIP-1-9999" (some 1) (some c7Ff) =
      .error notFoundError :=
  ⟨rfl, rfl, rfl⟩

/-! ## C10: a tenantless user cannot authenticate at all -/

/-- C10: login embeds the user's CURRENT (null) organization id in the
token, and `get_current_user` rejects any token whose user_id or
organization_id claim is null with the 401 "Invalid token payload" —
before any role or visibility logic — so a user detached from their
tenant is locked out of every authenticated operation. -/
theorem null_tenant_lockout_c10 (u : UserRec) (users : List UserRec)
    (h : u.organization_id = none) :
    getCurrentUser (some (loginTokenPayload u)) users =
      .error invalidPayloadError := by
  simp [getCurrentUser, loginTokenPayload, h]

/-- Witness for C10: a concrete detached user's fresh login token is
rejected. -/
theorem null_tenant_lockout_c10_witness :
    getCurrentUser (some (loginTokenPayload ⟨9, "bob", "supplier", none, none⟩))
      [⟨9, "bob", "supplier", none, none⟩] = .error invalidPayloadError :=
  null_tenant_lockout_c10 ⟨9, "bob", "supplier", none, none⟩
    [⟨9, "bob", "supplier", none, none⟩] rfl

/-! ## C1: cross-tenant reads and mutations collapse into the one 404 -/

/-- The lookup of every shipment operation filters by id AND tenant in
one query; this lemma discharges it for a foreign-tenant caller. -/
theorem find_filtered_none_of_cross (db : Db) (u : UserRec) (s : Shipment)
    (hcross : u.organization_id ≠ some s.organization_id)
    (hpk : ∀ t ∈ db.shipments, t.id = s.id → t = s) :
    db.shipments.find?
      (fun t => t.id == s.id && some t.organization_id == u.organization_id) =
      none := by
  rw [List.find?_eq_none]
  intro t ht
  simp only [Bool.and_eq_true, beq_iff_eq, not_and]
  intro h1 h2
  have : t = s := hpk t ht h1
  subst this
  exact hcross h2.symm

/-- No row at all matches a nonexistent id. -/
theorem find_filtered_none_of_absent (db : Db) (org : Option Nat)
    (sid2 : String) (hne : ∀ t ∈ db.shipments, t.id ≠ sid2) :
    db.shipments.find?
      (fun t => t.id == sid2 && some t.organization_id == org) = none := by
  rw [List.find?_eq_none]
  intro t ht
  simp only [Bool.and_eq_true, beq_iff_eq, not_and]
  intro h1
  exact absurd h1 (hne t ht)

/-- C1: a non-admin user of tenant B asking for a shipment of a different
tenant A gets, from `get_shipment`, `update_status` and
`update_shipment` alike, the very same 404 "Shipment not found or access
denied" that a nonexistent shipment id produces — the single lookup is
filtered by both shipment id and tenant id, so the foreign row is simply
never found.  (`hpk` is primary-key uniqueness of shipment ids; `hne`
says `sid2` is a nonexistent id.) -/
theorem tenant_isolation_c1 (db : Db) (u : UserRec) (s : Shipment)
    (sid2 : String) (ns : TargetStatus) (key : String) (upd : UpdateData)
    (_hmem : s ∈ db.shipments)
    (_hrole : u.role ≠ "admin")
    (hcross : u.organization_id ≠ some s.organization_id)
    (hpk : ∀ t ∈ db.shipments, t.id = s.id → t = s)
    (hne : ∀ t ∈ db.shipments, t.id ≠ sid2) :
    getShipmentService db s.id u.organization_id (some u) = .error notFoundError ∧
    getShipmentService db sid2 u.organization_id (some u) = .error notFoundError ∧
    updateStatusService db s.id ns u key = .error notFoundError ∧
    updateStatusService db sid2 ns u key = .error notFoundError ∧
    updateShipmentService db s.id upd u = .error notFoundError ∧
    updateShipmentService db sid2 upd u = .error notFoundError := by
  have hf1 := find_filtered_none_of_cross db u s hcross hpk
  have hf2 := find_filtered_none_of_absent db u.organization_id sid2 hne
  refine ⟨?_, ?_, ?_, ?_, ?_, ?_⟩
  · simp [getShipmentService, hf1]
  · simp [getShipmentService, hf2]
  · simp [updateStatusService, hf1]
  · simp [updateStatusService, hf2]
  · simp [updateShipmentService, hf1]
  · simp [updateShipmentService, hf2]

/-- A tenant-1 shipment for the isolation witness. -/
def c1ShipmentA : Shipment :=
  { id := "SHIP-1-0001", supplier := "Acme", warehouse := "Kazan",
    route_type := "DIRECT", shipment_type := "BAGS", fulfillment := none,
    shipment_date := none, current_status := some "новая отправка",
    bags_data := [], total_bags := 0, total_pieces := 0,
    organization_id := 1, created_at := 0, updated_at := 0 }

/-- A tenant-2 shipment in the same store. -/
def c1ShipmentB : Shipment :=
  { id := "SHIP-2-0001", supplier := "Zeta", warehouse := "Moscow",
    route_type := "DIRECT", shipment_type := "BAGS", fulfillment := none,
    shipment_date := none, current_status := some "новая отправка",
    bags_data := [], total_bags := 0, total_pieces := 0,
    organization_id := 2, created_at := 0, updated_at := 0 }

/-- A supplier of tenant 2 (non-admin). -/
def c1UserB : UserRec := ⟨11, "b-sup", "supplier", some 2, none⟩

/-- The two-tenant store of the spec's scenario. -/
def c1Db : Db := ⟨[c1ShipmentA, c1ShipmentB], [], [], [c1UserB], 1⟩

/-- The empty update patch used by the isolation witness. -/
def c1NoPatch : UpdateData := ⟨none, none, none, none, none, none, none⟩

/-- Witness for C1: in the spec's concrete scenario, the tenant-2 user's
requests for tenant-1's SHIP-1-0001 and for the nonexistent SHIP-1-9999
yield the identical 404 across all three operations. -/
theorem tenant_isolation_c1_witness :
    getShipmentService c1Db "SHIP-1-0001" (some 2) (some c1UserB) =
      .error notFoundError ∧
    getShipmentService c1Db "SHIP-1-9999" (some 2) (some c1UserB) =
      .error notFoundError ∧
    updateStatusService c1Db "SHIP-1-0001" .SENT_FROM_FACTORY c1UserB "k" =
      .error notFoundError ∧
    updateStatusService c1Db "SHIP-1-9999" .SENT_FROM_FACTORY c1UserB "k" =
      .error notFoundError ∧
    updateShipmentService c1Db "SHIP-1-0001" c1NoPatch c1UserB =
      .error notFoundError ∧
    updateShipmentService c1Db "SHIP-1-9999" c1NoPatch c1UserB =
      .error notFoundError :=
  tenant_isolation_c1 c1Db c1UserB c1ShipmentA "SHIP-1-9999"
    .SENT_FROM_FACTORY "k" c1NoPatch
    (by decide) (by decide) (by decide) (by decide) (by decide)

/-! ## C5: the tenant guard `get_current_user` -/

/-- C5: authentication fails with a 401 outcome in exactly the claimed
cases — invalid/expired token (no payload), absent user_id or tenant
claim, no user row for the user_id, or a token tenant claim differing
from the freshly loaded row's current tenant — every failure carries
status 401, and otherwise the fully resolved user row is returned. -/
theorem get_current_user_spec_c5 (p : Option TokenPayload)
    (users : List UserRec) :
    (∀ e, getCurrentUser p users = .error e → e.status_code = 401) ∧
    (p = none → getCurrentUser p users = .error invalidCredentialsError) ∧
    (∀ pay, p = some pay → (pay.user_id = none ∨ pay.organization_id = none) →
      getCurrentUser p users = .error invalidPayloadError) ∧
    (∀ pay uid oid, p = some pay → pay.user_id = some uid →
      pay.organization_id = some oid →
      users.find? (fun u => u.id == uid) = none →
      getCurrentUser p users = .error userNotFoundError) ∧
    (∀ pay uid oid u, p = some pay → pay.user_id = some uid →
      pay.organization_id = some oid →
      users.find? (fun u => u.id == uid) = some u →
      (u.organization_id ≠ some oid →
        getCurrentUser p users = .error orgMismatchError) ∧
      (u.organization_id = some oid → getCurrentUser p users = .ok u)) := by
  refine ⟨?_, ?_, ?_, ?_, ?_⟩
  · intro e h
    unfold getCurrentUser at h
    cases p with
    | none =>
      simp only [Except.error.injEq] at h
      rw [← h]
      rfl
    | some pay =>
      rcases hu : pay.user_id with _ | uid <;>
        rcases ho : pay.organization_id with _ | oid <;>
          simp only [hu, ho] at h
      · simp only [Except.error.injEq] at h; rw [← h]; rfl
      · simp only [Except.error.injEq] at h; rw [← h]; rfl
      · simp only [Except.error.injEq] at h; rw [← h]; rfl
      · cases hf : users.find? (fun u => u.id == uid) with
        | none =>
          simp only [hf, Except.error.injEq] at h; rw [← h]; rfl
        | some u =>
          simp only [hf] at h
          by_cases hc : u.organization_id = some oid
          · simp [hc] at h
          · simp only [if_neg hc, Except.error.injEq] at h; rw [← h]; rfl
  · intro h; subst h; rfl
  · intro pay hp hmiss
    subst hp
    rcases hmiss with h | h <;> simp [getCurrentUser, h]
  · intro pay uid oid hp hu ho hf
    subst hp
    simp [getCurrentUser, hu, ho, hf]
  · intro pay uid oid u hp hu ho hf
    subst hp
    constructor
    · intro hne
      simp [getCurrentUser, hu, ho, hf, hne]
    · intro heq
      simp [getCurrentUser, hu, ho, hf, heq]

/-- Witness for C5: a concrete valid token resolves its user, and the
missing-payload case yields the invalid-credentials 401. -/
theorem get_current_user_spec_c5_witness :
    getCurrentUser (some ⟨some 7, "alice", "supplier", some 3⟩)
      [⟨7, "alice", "supplier", some 3, none⟩] =
      .ok ⟨7, "alice", "supplier", some 3, none⟩ ∧
    getCurrentUser none [⟨7, "alice", "supplier", some 3, none⟩] =
      .error invalidCredentialsError :=
  ⟨((get_current_user_spec_c5 (some ⟨some 7, "alice", "supplier", some 3⟩)
        [⟨7, "alice", "supplier", some 3, none⟩]).2.2.2.2
      ⟨some 7, "alice", "supplier", some 3⟩ 7 3
      ⟨7, "alice", "supplier", some 3, none⟩ rfl rfl rfl rfl).2 rfl,
    (get_current_user_spec_c5 none
        [⟨7, "alice", "supplier", some 3, none⟩]).2.1 rfl⟩

/-! ## C8: the derived-totals invariant -/

/-- The §3 invariant: `total_bags` counts the bags and `total_pieces`
sums every quantity of every item of every bag. -/
def shipmentTotalsOk (s : Shipment) : Prop :=
  s.total_bags = s.bags_data.length ∧ s.total_pieces = bagsTotalPieces s.bags_data

/-- The supplier branch never touches bags or totals. -/
theorem updStepSupplier_totals (upd : UpdateData) (sid : String) (uid : Nat)
    (org : Option Nat) (sl : Shipment × List ChangeLogEntry)
    (h : shipmentTotalsOk sl.1) :
    shipmentTotalsOk (updStepSupplier upd sid uid org sl).1 := by
  unfold updStepSupplier
  cases upd.supplier with
  | none => exact h
  | some v =>
    dsimp only
    split
    · exact h
    · exact h

/-- The warehouse branch never touches bags or totals. -/
theorem updStepWarehouse_totals (upd : UpdateData) (sid : String) (uid : Nat)
    (org : Option Nat) (sl : Shipment × List ChangeLogEntry)
    (h : shipmentTotalsOk sl.1) :
    shipmentTotalsOk (updStepWarehouse upd sid uid org sl).1 := by
  unfold updStepWarehouse
  cases upd.warehouse with
  | none => exact h
  | some v =>
    dsimp only
    split
    · exact h
    · exact h

/-- The route_type branch never touches bags or totals. -/
theorem updStepRouteType_totals (upd : UpdateData) (sid : String) (uid : Nat)
    (org : Option Nat) (sl : Shipment × List ChangeLogEntry)
    (h : shipmentTotalsOk sl.1) :
    shipmentTotalsOk (updStepRouteType upd sid uid org sl).1 := by
  unfold updStepRouteType
  cases upd.route_type with
  | none => exact h
  | some v =>
    dsimp only
    split
    · exact h
    · exact h

/-- The shipment_type branch never touches bags or totals. -/
theorem updStepShipmentType_totals (upd : UpdateData) (sid : String) (uid : Nat)
    (org : Option Nat) (sl : Shipment × List ChangeLogEntry)
    (h : shipmentTotalsOk sl.1) :
    shipmentTotalsOk (updStepShipmentType upd sid uid org sl).1 := by
  unfold updStepShipmentType
  cases upd.shipment_type with
  | none => exact h
  | some v =>
    dsimp only
    split
    · exact h
    · exact h

/-- The fulfillment branch never touches bags or totals. -/
theorem updStepFulfillment_totals (upd : UpdateData) (sid : String) (uid : Nat)
    (org : Option Nat) (sl : Shipment × List ChangeLogEntry)
    (h : shipmentTotalsOk sl.1) :
    shipmentTotalsOk (updStepFulfillment upd sid uid org sl).1 := by
  unfold updStepFulfillment
  cases upd.fulfillment with
  | none => exact h
  | some v =>
    dsimp only
    split
    · exact h
    · exact h

/-- The shipment_date branch never touches bags or totals. -/
theorem updStepShipmentDate_totals (upd : UpdateData) (sid : String) (uid : Nat)
    (org : Option Nat) (sl : Shipment × List ChangeLogEntry)
    (h : shipmentTotalsOk sl.1) :
    shipmentTotalsOk (updStepShipmentDate upd sid uid org sl).1 := by
  unfold updStepShipmentDate
  cases upd.shipment_date with
  | none => exact h
  | some v =>
    dsimp only
    split
    · exact h
    · exact h

/-- The bags branch recomputes both totals from the new collection when
it changes, and leaves everything alone when it does not. -/
theorem updStepBags_totals (upd : UpdateData) (sid : String) (uid : Nat)
    (org : Option Nat) (sl : Shipment × List ChangeLogEntry)
    (h : shipmentTotalsOk sl.1) :
    shipmentTotalsOk (updStepBags upd sid uid org sl).1 := by
  unfold updStepBags
  cases upd.bags_data with
  | none => exact h
  | some nb =>
    dsimp only
    split
    · exact ⟨rfl, rfl⟩
    · exact h

/-- The whole field-branch chain of `update_shipment` preserves the
totals invariant. -/
theorem applyUpdateSteps_totals (upd : UpdateData) (sid : String) (uid : Nat)
    (org : Option Nat) (s : Shipment) (h : shipmentTotalsOk s) :
    shipmentTotalsOk (applyUpdateSteps upd sid uid org s).1 := by
  unfold applyUpdateSteps
  exact updStepBags_totals _ _ _ _ _
    (updStepShipmentDate_totals _ _ _ _ _
      (updStepFulfillment_totals _ _ _ _ _
        (updStepShipmentType_totals _ _ _ _ _
          (updStepRouteType_totals _ _ _ _ _
            (updStepWarehouse_totals _ _ _ _ _
              (updStepSupplier_totals _ _ _ _ (s, []) h))))))

/-- A committed update preserves the store-wide totals invariant when
the mutated row satisfies it. -/
theorem commitUpdate_totals (db : Db) (sid : String)
    (r : Shipment × List ChangeLogEntry)
    (hdb : ∀ t ∈ db.shipments, shipmentTotalsOk t)
    (hr : shipmentTotalsOk r.1) :
    ∀ s ∈ (commitUpdate db sid r).shipments, shipmentTotalsOk s := by
  intro s hs
  unfold commitUpdate at hs
  by_cases hempty : r.2.isEmpty
  · rw [if_pos hempty] at hs
    exact hdb s hs
  · rw [if_neg hempty] at hs
    simp only [List.mem_map] at hs
    obtain ⟨t, ht, hts⟩ := hs
    by_cases hid : (t.id == sid) = true
    · rw [if_pos hid] at hts
      subst hts
      exact ⟨hr.1, hr.2⟩
    · rw [if_neg hid] at hts
      subst hts
      exact hdb t ht

/-- The result pair of a successful mapped read carries the committed
store in its first component. -/
theorem map_pair_ok (d : Db) (x : Except HTTPError ShipmentView)
    (res : Db × ShipmentView)
    (h : Except.map (fun v => (d, v)) x = .ok res) : res.1 = d := by
  cases x with
  | error e => simp [Except.map] at h
  | ok v =>
    simp only [Except.map, Except.ok.injEq] at h
    rw [← h]

/-- C8: starting from a store in which every shipment satisfies the
totals invariant, `create_shipment` yields a store in which every
shipment still does (the new row's totals are computed from its bag
collection), and every successful `update_shipment` does too — a
bag-contents change recomputes `total_bags` and `total_pieces` from the
new collection before the store is written. -/
theorem totals_invariant_c8 (db : Db)
    (hdb : ∀ t ∈ db.shipments, shipmentTotalsOk t) :
    (∀ (data : ShipmentCreate) (org : Nat) (s : Shipment),
      s ∈ (createShipmentService db data org).1.shipments →
      shipmentTotalsOk s) ∧
    (∀ (sid : String) (upd : UpdateData) (user : UserRec)
        (res : Db × ShipmentView),
      updateShipmentService db sid upd user = .ok res →
      ∀ s ∈ res.1.shipments, shipmentTotalsOk s) := by
  constructor
  · intro data org s hs
    simp only [createShipmentService, List.mem_append, List.mem_singleton] at hs
    rcases hs with hs | hs
    · exact hdb s hs
    · subst hs
      exact ⟨rfl, rfl⟩
  · intro sid upd user res hres s hs
    unfold updateShipmentService at hres
    cases hfind : db.shipments.find?
        (fun t => t.id == sid && some t.organization_id == user.organization_id) with
    | none => rw [hfind] at hres; exact absurd hres (by simp)
    | some found =>
      rw [hfind] at hres
      dsimp only at hres
      have hfoundmem : found ∈ db.shipments := List.mem_of_find?_eq_some hfind
      by_cases horg : some found.organization_id ≠ user.organization_id
      · rw [if_pos horg] at hres
        exact absurd hres (by simp)
      · rw [if_neg horg] at hres
        have hres1 : res.1 = commitUpdate db sid
            (applyUpdateSteps upd sid user.id user.organization_id found) :=
          map_pair_ok _ _ _ hres
        rw [hres1] at hs
        exact commitUpdate_totals db sid _ hdb
          (applyUpdateSteps_totals upd sid user.id user.organization_id found
            (hdb found hfoundmem)) s hs

/-- The one-bag payload of the totals witness: 2 + 3 = 5 pieces. -/
def c8Data : ShipmentCreate :=
  ⟨"Acme", "Kazan", "DIRECT", "BAGS", none, none,
    [⟨"BAG-1", [⟨"shirt", "red", [("S", 2), ("M", 3)]⟩]⟩]⟩

/-- The row `create_shipment` persists for that payload in an empty
store under tenant 1. -/
def c8Created : Shipment :=
  { id := "SHIP-1-0001", supplier := "Acme", warehouse := "Kazan",
    route_type := "DIRECT", shipment_type := "BAGS", fulfillment := none,
    shipment_date := none, current_status := some "новая отправка",
    bags_data := [⟨"BAG-1", [⟨"shirt", "red", [("S", 2), ("M", 3)]⟩]⟩],
    total_bags := 1, total_pieces := 5, organization_id := 1,
    created_at := 0, updated_at := 0 }

/-- Witness for C8: the concrete created row satisfies the invariant
(1 bag, 5 pieces). -/
theorem totals_invariant_c8_witness : shipmentTotalsOk c8Created :=
  (totals_invariant_c8 ⟨[], [], [], [], 0⟩ (by simp)).1 c8Data 1 c8Created
    (by decide)

/-! ## C9: payload validation before persistence -/

/-- Does any size bucket of any item of any bag carry a negative
quantity? -/
def hasNegativeQty (bags : List Bag) : Bool :=
  bags.any (fun b => b.items.any (fun it => it.sizes.any (fun kv => kv.2 < 0)))

/-- Do two bags of one shipment share a bag id? -/
def hasDupBagIds (bags : List Bag) : Bool :=
  ! decide (bags.map (fun b => b.bag_id)).Nodup

/-- An existing, pristine tenant-1 shipment to be updated. -/
def c9Shipment : Shipment :=
  { id := "SHIP-1-0001", supplier := "Acme", warehouse := "Kazan",
    route_type := "DIRECT", shipment_type := "BAGS", fulfillment := none,
    shipment_date := none, current_status := some "новая отправка",
    bags_data := [⟨"BAG-0", [⟨"shirt", "red", [("S", 2)]⟩]⟩],
    total_bags := 1, total_pieces := 2, organization_id := 1,
    created_at := 0, updated_at := 0 }

/-- A supplier of tenant 1 (PUT route's role gate admits it). -/
def c9Supplier : UserRec := ⟨1, "sup", "supplier", some 1, none⟩

/-- The store holding that shipment. -/
def c9Db : Db := ⟨[c9Shipment], [], [], [c9Supplier], 1⟩

/-- An update body that is well-typed for the frozen `ShipmentUpdate`
schema but whose bag collection carries a negative quantity (S: -5) and
two bags with the same id "BAG-1". -/
def c9BadBody : Json :=
  .obj [("bags_data", .arr [
    .obj [("bag_id", .str "BAG-1"),
      ("items", .arr [
        .obj [("model", .str "shirt"), ("color", .str "red"),
          ("sizes", .obj [("S", .int (-5))])]])],
    .obj [("bag_id", .str "BAG-1"), ("items", .arr [])]])]

/-- The PUT /shipments/SHIP-1-0001 request for that body. -/
def c9Result : Except HTTPError (Db × ShipmentView) :=
  updateShipmentRoute c9Db "SHIP-1-0001" c9BadBody c9Supplier

/-- The store after that request. -/
def c9DbAfter : Db :=
  match c9Result with
  | .ok p => p.1
  | .error _ => c9Db

/-- C9 as stated is false on the frozen source: the `ShipmentUpdate`
schema validation accepts an update payload with a negative size
quantity and duplicate bag ids, and the update operation persists it —
the shipment row is rewritten with both defects and a stored
`total_pieces` of -5, and a "bag_contents" change-log entry is written
for the very payload the claim says leaves no trace.  (Every field this
path touches exists on the frozen ORM model; the `shipment_type` /
`fulfillment` branches are unreachable because the frozen schema cannot
emit those keys.) -/
theorem invalid_update_persisted_c9 :
    (parseShipmentUpdate c9BadBody).isSome = true ∧
    Except.isOk c9Result = true ∧
    c9DbAfter.shipments.map (fun s => hasNegativeQty s.bags_data) = [true] ∧
    c9DbAfter.shipments.map (fun s => hasDupBagIds s.bags_data) = [true] ∧
    c9DbAfter.shipments.map (fun s => s.total_pieces) = [-5] ∧
    c9DbAfter.changeLog.map (fun e => e.change_type) = ["bag_contents"] :=
  ⟨rfl, rfl, rfl, rfl, rfl, rfl⟩

/-- C9 amended: a payload that fails the pydantic type/shape validation
is rejected with the validation error before the handler — and hence any
persistence — is reached; payloads that merely carry negative quantities
or duplicate bag ids are not rejected by any validation. -/
theorem malformed_rejected_c9 (body : Json) (db : Db) (sid : String)
    (u : UserRec) (h : parseShipmentUpdate body = none) :
    updateShipmentRoute db sid body u = .error validationError := by
  simp [updateShipmentRoute, h]

/-- Witness for the amended C9: a body whose bags_data is a string fails
validation and the update route rejects it before any persistence. -/
theorem malformed_rejected_c9_witness :
    parseShipmentUpdate (.obj [("bags_data", .str "nope")]) = none ∧
    updateShipmentRoute ⟨[], [], [], [], 0⟩ "SHIP-1-0001"
        (.obj [("bags_data", .str "nope")]) ⟨1, "sup", "supplier", some 1, none⟩ =
      .error validationError :=
  ⟨rfl, malformed_rejected_c9 (.obj [("bags_data", .str "nope")])
    ⟨[], [], [], [], 0⟩ "SHIP-1-0001" ⟨1, "sup", "supplier", some 1, none⟩ rfl⟩

end ShipTrack
